import Mathlib

/-!
Verification development for the torchMoji text-processing core.

The repository snapshot ships the tests of the tokenizer, the word
generator and the emoji filter utilities, but not those three modules
themselves; following the specification (spec.md §4.1-§4.3), the missing
modules are modelled here as executable Lean definitions.  The emoji
emotion metadata (`torchmoji/emojis.py`) is present in the snapshot and
is embedded directly from its source.

Strings are modelled as their codepoint lists (`String.data`); machine
floats of `filter_emojis_by_emotion` are modelled as rationals, since the
code only ever compares them.
-/

namespace TorchMoji

/-- ASCII whitespace characters (space, tab, LF, VT, FF, CR): per spec §4.2
whitespace is never emitted as a token and only delimits scan boundaries. -/
def isWs (c : Char) : Bool :=
  c.toNat == 32 || c.toNat == 9 || c.toNat == 10 ||
  c.toNat == 11 || c.toNat == 12 || c.toNat == 13

/-- ASCII letter. -/
def isAsciiLetter (c : Char) : Bool :=
  (97 ≤ c.toNat && c.toNat ≤ 122) || (65 ≤ c.toNat && c.toNat ≤ 90)

/-- ASCII digit. -/
def isAsciiDigit (c : Char) : Bool :=
  48 ≤ c.toNat && c.toNat ≤ 57

/-- Word characters for handle/hashtag bodies: letters, digits, underscore. -/
def isHandleChar (c : Char) : Bool :=
  isAsciiLetter c || isAsciiDigit c || c.toNat == 95

/-- ASCII punctuation or symbol: any ASCII character that is neither a
letter, a digit nor whitespace (this includes the underscore, which the
word rule of spec §4.2 rule 6 does not claim). -/
def isPunctChar (c : Char) : Bool :=
  c.toNat ≤ 127 && !(isAsciiLetter c) && !(isAsciiDigit c) && !(isWs c)

/-- Modelled from the spec: emoji/symbol codepoint classification (spec
§4.1, §9 open question).  The original system uses an external Unicode
emoji table; as the spec instructs, an equivalent categorization is
chosen: miscellaneous symbols and dingbats (U+2600-U+27BF), symbols and
arrows (U+2B00-U+2BFF) and the emoji planes (U+1F000-U+1FAFF, which
contain the skin-tone modifiers U+1F3FB-U+1F3FF).  The zero-width joiner
U+200D and the variation selectors are not emoji (spec §4.1, glossary). -/
def isEmojiChar (c : Char) : Bool :=
  (0x2600 ≤ c.toNat && c.toNat ≤ 0x27BF) ||
  (0x2B00 ≤ c.toNat && c.toNat ≤ 0x2BFF) ||
  (0x1F000 ≤ c.toNat && c.toNat ≤ 0x1FAFF)

/-- Characters allowed inside a URL-shaped run (spec §4.2 rule 1). -/
def isUrlChar (c : Char) : Bool :=
  isAsciiLetter c || isAsciiDigit c ||
  c.toNat == 46 || c.toNat == 47 || c.toNat == 58 || c.toNat == 45 ||
  c.toNat == 95 || c.toNat == 37 || c.toNat == 63 || c.toNat == 61 ||
  c.toNat == 38 || c.toNat == 126 || c.toNat == 35 || c.toNat == 64 ||
  c.toNat == 43

/-- Characters allowed in the local part of an email-like run
(spec §4.2 rule 2). -/
def isEmailLocalChar (c : Char) : Bool :=
  isAsciiLetter c || isAsciiDigit c ||
  c.toNat == 46 || c.toNat == 95 || c.toNat == 37 ||
  c.toNat == 43 || c.toNat == 45

/-- Characters allowed in the domain part of an email-like run. -/
def isEmailDomainChar (c : Char) : Bool :=
  isAsciiLetter c || isAsciiDigit c || c.toNat == 46 || c.toNat == 45

/-- Length of the longest prefix whose characters all satisfy `p`. -/
def countWhile (p : Char → Bool) : List Char → Nat
  | [] => 0
  | c :: cs => if p c then countWhile p cs + 1 else 0

/-- Whether the second list starts with the first one. -/
def startsWithChars : List Char → List Char → Bool
  | [], _ => true
  | _ :: _, [] => false
  | p :: ps, c :: cs => p == c && startsWithChars ps cs

/-- Modelled from the spec: URL matcher (spec §4.2 rule 1) for the missing
`torchmoji/tokenizer.py`.  Scheme-qualified URLs and `www.*.*` hosts are
one token spanning the full URL-shaped run. -/
def matchUrl (l : List Char) : Nat :=
  if startsWithChars "http://".data l || startsWithChars "https://".data l then
    countWhile isUrlChar l
  else if startsWithChars "www.".data l then
    let n := countWhile isUrlChar l
    if 2 ≤ (l.take n).countP (fun c => c.toNat == 46) then n else 0
  else 0

/-- Modelled from the spec: email-like matcher (spec §4.2 rule 2), a
`word@word.word` run captured as one combined token. -/
def matchEmail (l : List Char) : Nat :=
  let lo := countWhile isEmailLocalChar l
  if lo == 0 then 0
  else
    match l.drop lo with
    | c :: rest =>
      if c.toNat == 64 then
        let dn := countWhile isEmailDomainChar rest
        if 0 < dn && 1 ≤ (rest.take dn).countP (fun d => d.toNat == 46) then
          lo + 1 + dn
        else 0
      else 0
    | [] => 0

/-- Modelled from the spec: handle/hashtag matcher (spec §4.2 rule 2): a
leading `@`/`#` followed by word characters, stopping before trailing
punctuation. -/
def matchHandle (l : List Char) : Nat :=
  match l with
  | [] => 0
  | c :: rest =>
    if c.toNat == 64 || c.toNat == 35 then
      let n := countWhile isHandleChar rest
      if 0 < n then 1 + n else 0
    else 0

/-- Modelled from the spec: the fixed small set of ASCII emoticon
patterns (spec §4.2 rule 3), longest first. -/
def EMOTICONS : List String :=
  [">:-(", ">:-)", ":-)", ":-(", ":-D", ":-P", ";-)", ";-(",
   ":)", ":(", ";)", ";(", ":D", ":P"]

/-- Modelled from the spec: emoticon matcher (spec §4.2 rule 3). -/
def matchEmoticon (l : List Char) : Nat :=
  match EMOTICONS.find? (fun e => startsWithChars e.data l) with
  | some e => e.data.length
  | none => 0

/-- Modelled from the spec: heart-substitute matcher (spec §4.2 rule 4):
`<3` with repeated threes grouped into one token. -/
def matchHeart (l : List Char) : Nat :=
  match l with
  | [] => 0
  | c :: rest =>
    if c.toNat == 60 then
      let n := countWhile (fun d => d.toNat == 51) rest
      if 0 < n then 1 + n else 0
    else 0

/-- Modelled from the spec: individual emoji codepoints are each their own
token (spec §4.2 rule 4). -/
def matchEmoji (l : List Char) : Nat :=
  match l with
  | [] => 0
  | c :: _ => if isEmojiChar c then 1 else 0

/-- Modelled from the spec: maximal digit runs are one token, never
extended across separators (spec §4.2 rule 5). -/
def matchNumber (l : List Char) : Nat :=
  countWhile isAsciiDigit l

/-- Modelled from the spec: the finite recognized dotted-abbreviation set
(spec §4.2 rule 7 and §9: the set is external configuration data). -/
def ABBREVIATIONS : List String :=
  ["a.m.", "p.m.", "Mrs.", "Mr.", "Ms.", "Dr.", "St.", "vs.", "etc."]

/-- Modelled from the spec: known dotted abbreviations are one token
(spec §4.2 rule 7). -/
def matchAbbrev (l : List Char) : Nat :=
  match ABBREVIATIONS.find? (fun e => startsWithChars e.data l) with
  | some e => e.data.length
  | none => 0

/-- Modelled from the spec: alphanumeric word with at most one internal
apostrophe or hyphen (spec §4.2 rule 6); a second adjacent quote breaks
the run. -/
def matchWord (l : List Char) : Nat :=
  let n1 := countWhile isAsciiLetter l
  if n1 == 0 then 0
  else
    match l.drop n1 with
    | c :: rest =>
      if c.toNat == 39 || c.toNat == 45 then
        let n2 := countWhile isAsciiLetter rest
        if 0 < n2 then n1 + 1 + n2 else n1
      else n1
    | [] => n1

/-- Modelled from the spec: a maximal run of identical adjacent
punctuation characters is one token; alternating punctuation is not
grouped (spec §4.2 rule 8). -/
def matchPunctRun (l : List Char) : Nat :=
  match l with
  | [] => 0
  | c :: rest =>
    if isPunctChar c then 1 + countWhile (fun d => d == c) rest
    else 0

/-- Modelled from the spec: the priority-ordered dispatch of the missing
`torchmoji/tokenizer.py` (spec §4.2): at each scan position the pattern
classes are tried in precedence order and the first match is committed;
any remaining single character is its own token (rule 9 fallback). -/
def nextTokenLen (l : List Char) : Nat :=
  if 0 < matchUrl l then matchUrl l else
  if 0 < matchEmail l then matchEmail l else
  if 0 < matchHandle l then matchHandle l else
  if 0 < matchEmoticon l then matchEmoticon l else
  if 0 < matchHeart l then matchHeart l else
  if 0 < matchEmoji l then matchEmoji l else
  if 0 < matchNumber l then matchNumber l else
  if 0 < matchAbbrev l then matchAbbrev l else
  if 0 < matchWord l then matchWord l else
  if 0 < matchPunctRun l then matchPunctRun l else 1

theorem nextTokenLen_pos (l : List Char) : 1 ≤ nextTokenLen l := by
  unfold nextTokenLen
  repeat' split
  all_goals omega

/-- Modelled from the spec: greedy left-to-right tokenization of one
whitespace-free chunk (spec §4.2), with explicit fuel (the scan consumes
at least one character per step, so fuel `l.length` always suffices). -/
def tokenizeChunkF : Nat → List Char → List (List Char)
  | _, [] => []
  | 0, _ :: _ => []
  | fuel + 1, c :: cs =>
    (c :: cs).take (nextTokenLen (c :: cs)) ::
      tokenizeChunkF fuel ((c :: cs).drop (nextTokenLen (c :: cs)))

/-- Modelled from the spec: greedy left-to-right tokenization of one
whitespace-free chunk (spec §4.2). -/
def tokenizeChunk (l : List Char) : List (List Char) :=
  tokenizeChunkF l.length l

/-- Modelled from the spec: split the input into its maximal
whitespace-free chunks (spec §4.2), with explicit fuel. -/
def splitChunksF : Nat → List Char → List (List Char)
  | _, [] => []
  | 0, _ :: _ => []
  | fuel + 1, c :: cs =>
    if isWs c then splitChunksF fuel cs
    else
      (c :: cs.takeWhile (fun d => !(isWs d))) ::
        splitChunksF fuel (cs.dropWhile (fun d => !(isWs d)))

/-- Modelled from the spec: split the input into its maximal
whitespace-free chunks; whitespace only delimits scan boundaries
(spec §4.2). -/
def splitChunks (l : List Char) : List (List Char) :=
  splitChunksF l.length l

/-- Modelled from the spec: `tokenize(text)` of the missing
`torchmoji/tokenizer.py` (spec §4.2): an ordered sequence of token
strings over a single line of text. -/
def tokenize (s : String) : List String :=
  (((splitChunks s.data).map tokenizeChunk).flatten).map (fun t => String.mk t)

theorem tokenizeChunkF_flatten :
    ∀ (fuel : Nat) (l : List Char), l.length ≤ fuel →
      (tokenizeChunkF fuel l).flatten = l := by
  intro fuel
  induction fuel with
  | zero =>
    intro l h
    have : l = [] := List.eq_nil_of_length_eq_zero (Nat.le_zero.1 h)
    subst this
    rfl
  | succ n ih =>
    intro l h
    match l with
    | [] => rfl
    | c :: cs =>
      simp only [tokenizeChunkF, List.flatten_cons]
      rw [ih _ ?_, List.take_append_drop]
      have hpos := nextTokenLen_pos (c :: cs)
      rw [List.length_drop]
      simp only [List.length_cons] at h ⊢
      omega

theorem tokenizeChunk_flatten (l : List Char) : (tokenizeChunk l).flatten = l :=
  tokenizeChunkF_flatten l.length l le_rfl

theorem tokenizeChunkF_tokens :
    ∀ (fuel : Nat) (l : List Char), ∀ t ∈ tokenizeChunkF fuel l,
      t ≠ [] ∧ ∀ c ∈ t, c ∈ l := by
  intro fuel
  induction fuel with
  | zero =>
    intro l t ht
    match l with
    | [] => simp [tokenizeChunkF] at ht
    | _ :: _ => simp [tokenizeChunkF] at ht
  | succ n ih =>
    intro l t ht
    match l with
    | [] => simp [tokenizeChunkF] at ht
    | c :: cs =>
      simp only [tokenizeChunkF] at ht
      rcases List.mem_cons.1 ht with h | h
      · subst h
        constructor
        · have h1 := nextTokenLen_pos (c :: cs)
          have h2 : ((c :: cs).take (nextTokenLen (c :: cs))).length =
              min (nextTokenLen (c :: cs)) (c :: cs).length := List.length_take ..
          intro hnil
          rw [hnil] at h2
          simp only [List.length_nil, List.length_cons] at h2
          omega
        · intro x hx
          exact List.take_subset _ _ hx
      · rcases ih _ t h with ⟨hne, hsub⟩
        exact ⟨hne, fun x hx => List.drop_subset _ _ (hsub x hx)⟩

theorem splitChunksF_flatten :
    ∀ (fuel : Nat) (l : List Char), l.length ≤ fuel →
      (splitChunksF fuel l).flatten = l.filter (fun c => !(isWs c)) := by
  intro fuel
  induction fuel with
  | zero =>
    intro l h
    have : l = [] := List.eq_nil_of_length_eq_zero (Nat.le_zero.1 h)
    subst this
    rfl
  | succ n ih =>
    intro l h
    match l with
    | [] => rfl
    | c :: cs =>
      simp only [List.length_cons] at h
      simp only [splitChunksF]
      by_cases hws : isWs c
      · rw [if_pos hws, ih cs (by omega), List.filter_cons]
        simp [hws]
      · rw [if_neg hws]
        simp only [List.flatten_cons]
        have hlen : (cs.dropWhile (fun d => !(isWs d))).length ≤ n := by
          have := (List.dropWhile_sublist (l := cs) (fun d => !(isWs d))).length_le
          omega
        rw [ih _ hlen, List.filter_cons]
        have hc : (!(isWs c)) = true := by simp [hws]
        simp only [hc, if_pos]
        have hsplit : cs.filter (fun d => !(isWs d)) =
            cs.takeWhile (fun d => !(isWs d)) ++
              (cs.dropWhile (fun d => !(isWs d))).filter (fun d => !(isWs d)) := by
          conv_lhs =>
            rw [← List.takeWhile_append_dropWhile (p := fun d => !(isWs d)) (l := cs)]
          rw [List.filter_append]
          congr 1
          exact List.filter_eq_self.2
            (fun a ha => List.mem_takeWhile_imp (p := fun d => !(isWs d)) ha)
        simp [hsplit]

theorem splitChunks_flatten (l : List Char) :
    (splitChunks l).flatten = l.filter (fun c => !(isWs c)) :=
  splitChunksF_flatten l.length l le_rfl

theorem splitChunksF_no_ws :
    ∀ (fuel : Nat) (l : List Char), ∀ ch ∈ splitChunksF fuel l, ∀ c ∈ ch,
      isWs c = false := by
  intro fuel
  induction fuel with
  | zero =>
    intro l ch hch
    match l with
    | [] => simp [splitChunksF] at hch
    | _ :: _ => simp [splitChunksF] at hch
  | succ n ih =>
    intro l ch hch
    match l with
    | [] => simp [splitChunksF] at hch
    | c :: cs =>
      simp only [splitChunksF] at hch
      by_cases hws : isWs c
      · rw [if_pos hws] at hch
        exact ih cs ch hch
      · rw [if_neg hws] at hch
        intro x hx
        rcases List.mem_cons.1 hch with h | h
        · subst h
          rcases List.mem_cons.1 hx with h | h
          · subst h
            simpa using hws
          · have := List.mem_takeWhile_imp (p := fun d => !(isWs d)) h
            simpa using this
        · exact ih _ ch h x hx

theorem tokenize_data_flatten (s : String) :
    ((tokenize s).map String.data).flatten = s.data.filter (fun c => !(isWs c)) := by
  show ((((splitChunks s.data).map tokenizeChunk).flatten).map
      (fun t => String.mk t) |>.map String.data).flatten = _
  rw [List.map_map]
  have hmk : (String.data ∘ fun t : List Char => String.mk t) = id := by
    funext t; rfl
  rw [hmk, List.map_id]
  have : ∀ chs : List (List Char),
      ((chs.map tokenizeChunk).flatten).flatten = chs.flatten := by
    intro chs
    induction chs with
    | nil => simp
    | cons ch t ih =>
      simp only [List.map_cons, List.flatten_cons, List.flatten_append, ih,
        tokenizeChunk_flatten]
  rw [this, splitChunks_flatten]

/-- Claim C1: for every finite text input, `tokenize` terminates (it is a
total Lean function) and its tokens, in left-to-right order, cover every
non-whitespace character of the input exactly once — concatenating the
tokens yields exactly the input with its whitespace separators removed —
and no token is empty or contains whitespace. -/
theorem tokenize_total_coverage (s : String) :
    ((tokenize s).map String.data).flatten = s.data.filter (fun c => !(isWs c))
    ∧ ∀ t ∈ tokenize s, t.data ≠ [] ∧ ∀ c ∈ t.data, isWs c = false := by
  constructor
  · exact tokenize_data_flatten s
  · intro t ht
    rcases List.mem_map.1 ht with ⟨tok, htok, rfl⟩
    rcases List.mem_flatten.1 htok with ⟨chTokens, hchT, htok2⟩
    rcases List.mem_map.1 hchT with ⟨ch, hch, rfl⟩
    rcases tokenizeChunkF_tokens ch.length ch tok htok2 with ⟨hne, hsub⟩
    exact ⟨hne, fun c hc =>
      splitChunksF_no_ws s.data.length s.data ch hch c (hsub c hc)⟩

/-- Witness for C1 at a concrete input. -/
theorem tokenize_total_coverage_witness :
    ((tokenize "200K words!").map String.data).flatten =
      ("200K words!").data.filter (fun c => !(isWs c)) :=
  (tokenize_total_coverage "200K words!").1

/-- Counterexample to claim C2 as stated: `tokenize "no??!!.."` is not
`["??", "!!", ".."]` — the leading word `no` is also emitted (the
repository test expects `["no", "??", "!!", ".."]`, and dropping `no`
would contradict the coverage rule of spec §3). -/
theorem tokenize_punct_run_counterexample :
    tokenize "no??!!.." ≠ ["??", "!!", ".."] := by decide

/-- Claim C2 as amended: `tokenize "no??!!.."` is exactly
`["no", "??", "!!", ".."]` — the maximal runs of identical adjacent
punctuation are grouped, after the leading word token — and
`tokenize "no?!?!;"` emits every punctuation mark as its own
one-character token because alternating punctuation is not grouped. -/
theorem tokenize_punct_run_amended :
    tokenize "no??!!.." = ["no", "??", "!!", ".."]
    ∧ tokenize "no?!?!;" = ["no", "?", "!", "?", "!", ";"] := by
  constructor <;> decide

/-- Unicode variation-selector codepoints: the variation selectors block
U+FE00-U+FE0F (which contains the emoji-presentation marks U+FE0E/U+FE0F
named by spec §4.1) and the variation selectors supplement
U+E0100-U+E01EF. -/
def isVariationSelector (c : Char) : Bool :=
  (0xFE00 ≤ c.toNat && c.toNat ≤ 0xFE0F) ||
  (0xE0100 ≤ c.toNat && c.toNat ≤ 0xE01EF)

/-- Modelled from the spec: `remove_variation_selectors` of the missing
`torchmoji/filter_utils.py` (spec §4.1): deletes all variation-selector
codepoints, leaving all other characters in original order. -/
def remove_variation_selectors (s : String) : String :=
  String.mk (s.data.filter (fun c => !(isVariationSelector c)))

/-- Modelled from the spec: the left-to-right partition loop of
`separate_emojis_and_text` (spec §4.1), appending each emoji-classified
codepoint to the first output and every other codepoint to the second. -/
def separateChars : List Char → List Char × List Char
  | [] => ([], [])
  | c :: cs =>
    let rest := separateChars cs
    if isEmojiChar c then (c :: rest.1, rest.2) else (rest.1, c :: rest.2)

/-- Modelled from the spec: `separate_emojis_and_text` of the missing
`torchmoji/filter_utils.py` (spec §4.1). -/
def separate_emojis_and_text (s : String) : String × String :=
  (String.mk (separateChars s.data).1, String.mk (separateChars s.data).2)

/-- Modelled from the spec: `extract_emojis` of the missing
`torchmoji/filter_utils.py` (spec §4.1): the emoji-classified codepoints
of the variation-selector-cleaned text, decomposed into single-codepoint
strings in left-to-right order; with a `wanted` collection, each wanted
entry is normalized via `remove_variation_selectors` and the list is
filtered to codepoints whose normalized form is in the normalized set. -/
def extract_emojis (text : String) (wanted : Option (List String)) : List String :=
  let cleaned := remove_variation_selectors text
  let allCps := (cleaned.data.filter isEmojiChar).map (fun c => String.mk [c])
  match wanted with
  | none => allCps
  | some ws =>
    let normWanted := ws.map remove_variation_selectors
    allCps.filter (fun e => normWanted.contains (remove_variation_selectors e))

theorem separateChars_eq (l : List Char) :
    separateChars l = (l.filter isEmojiChar, l.filter (fun c => !(isEmojiChar c))) := by
  induction l with
  | nil => rfl
  | cons c cs ih =>
    simp only [separateChars, ih, List.filter_cons]
    by_cases h : isEmojiChar c <;> simp [h]

/-- Claim C4: `separate_emojis_and_text` partitions the codepoints of its
input — every codepoint lands in exactly one of the two outputs (counted
with multiplicity), each output preserves the input's left-to-right
order, emoji-classified codepoints (including the skin-tone modifiers)
go to the first output, all other codepoints go to the second, and in
particular the zero-width joiner U+200D is classified as non-emoji while
the skin-tone modifiers U+1F3FB-U+1F3FF are classified as emoji. -/
theorem separate_emojis_and_text_partition (s : String) :
    (∀ c : Char, ((separate_emojis_and_text s).1.data.count c +
        (separate_emojis_and_text s).2.data.count c) = s.data.count c)
    ∧ (separate_emojis_and_text s).1.data.Sublist s.data
    ∧ (separate_emojis_and_text s).2.data.Sublist s.data
    ∧ (∀ c ∈ (separate_emojis_and_text s).1.data, isEmojiChar c = true)
    ∧ (∀ c ∈ (separate_emojis_and_text s).2.data, isEmojiChar c = false)
    ∧ isEmojiChar (Char.ofNat 0x200D) = false
    ∧ isEmojiChar (Char.ofNat 0x1F3FB) = true
    ∧ isEmojiChar (Char.ofNat 0x1F3FF) = true := by
  have h1 : (separate_emojis_and_text s).1.data = s.data.filter isEmojiChar := by
    show (separateChars s.data).1 = _
    rw [separateChars_eq]
  have h2 : (separate_emojis_and_text s).2.data =
      s.data.filter (fun c => !(isEmojiChar c)) := by
    show (separateChars s.data).2 = _
    rw [separateChars_eq]
  refine ⟨?_, ?_, ?_, ?_, ?_, by decide, by decide, by decide⟩
  · intro c
    rw [h1, h2]
    by_cases h : isEmojiChar c
    · rw [List.count_filter h]
      have hnot : c ∉ s.data.filter (fun x => !(isEmojiChar x)) := by
        intro hmem
        have := List.of_mem_filter hmem
        simp [h] at this
      rw [List.count_eq_zero.2 hnot]
      omega
    · have hnot : c ∉ s.data.filter isEmojiChar := by
        intro hmem
        exact h (List.of_mem_filter hmem)
      rw [List.count_eq_zero.2 hnot,
        List.count_filter (p := fun x => !(isEmojiChar x)) (by simp [h])]
      omega
  · rw [h1]; exact List.filter_sublist _
  · rw [h2]; exact List.filter_sublist _
  · rw [h1]
    intro c hc
    exact List.of_mem_filter hc
  · rw [h2]
    intro c hc
    simpa using List.of_mem_filter hc

/-- Witness for C4 at a concrete input. -/
theorem separate_emojis_and_text_partition_witness :
    ∀ c : Char, ((separate_emojis_and_text "hi👍🏽!").1.data.count c +
        (separate_emojis_and_text "hi👍🏽!").2.data.count c) =
      ("hi👍🏽!").data.count c :=
  (separate_emojis_and_text_partition "hi👍🏽!").1

/-- Claim C5: `remove_variation_selectors` is idempotent, and a single
application removes every variation-selector codepoint while keeping all
remaining characters in their original relative order (with unchanged
multiplicities). -/
theorem remove_variation_selectors_idempotent (s : String) :
    remove_variation_selectors (remove_variation_selectors s) =
      remove_variation_selectors s
    ∧ (∀ c ∈ (remove_variation_selectors s).data, isVariationSelector c = false)
    ∧ (remove_variation_selectors s).data.Sublist s.data
    ∧ ∀ c : Char, isVariationSelector c = false →
        (remove_variation_selectors s).data.count c = s.data.count c := by
  refine ⟨?_, ?_, ?_, ?_⟩
  · show String.mk ((s.data.filter _).filter _) = _
    rw [List.filter_filter]
    congr 1
    exact List.filter_congr (fun c _ => by cases isVariationSelector c <;> rfl)
  · intro c hc
    simpa using List.of_mem_filter hc
  · exact List.filter_sublist _
  · intro c hc
    show (s.data.filter _).count c = _
    rw [List.count_filter]
    simp [hc]

/-- Witness for C5 at a concrete input. -/
theorem remove_variation_selectors_idempotent_witness :
    isVariationSelector 'a' = false ∧
      (remove_variation_selectors "a⚽️").data.count 'a' = ("a⚽️").data.count 'a' :=
  ⟨by decide, (remove_variation_selectors_idempotent "a⚽️").2.2.2 'a' (by decide)⟩

/-- Emoji-classified codepoints are never variation selectors: the
classification ranges are disjoint from the variation-selector blocks. -/
theorem not_variation_selector_of_emoji {c : Char} (h : isEmojiChar c = true) :
    isVariationSelector c = false := by
  cases hv : isVariationSelector c
  · rfl
  · exfalso
    simp only [isEmojiChar, Bool.or_eq_true, Bool.and_eq_true, decide_eq_true_eq] at h
    simp only [isVariationSelector, Bool.or_eq_true, Bool.and_eq_true,
      decide_eq_true_eq] at hv
    omega

theorem filter_emoji_remove_vs (l : List Char) :
    (l.filter (fun c => !(isVariationSelector c))).filter isEmojiChar =
      l.filter isEmojiChar := by
  rw [List.filter_filter]
  apply List.filter_congr
  intro c _
  cases he : isEmojiChar c
  · simp
  · simp [not_variation_selector_of_emoji he]

/-- Claim C6: for every `text`, `extract_emojis text none` is exactly the
list of all emoji-classified codepoints of `text`, as single-codepoint
strings, in left-to-right order, preserving duplicates (the filter keeps
each occurrence in input order) — in particular on `"😂😂"` it returns
the emoji twice; each returned entry is a single emoji-classified,
variation-selector-free codepoint; and with a `wanted` collection the
result is the `none` result filtered by membership of the
variation-selector-normalized wanted set — each returned entry is
already normalized, so it is kept exactly when it is itself in the
normalized wanted set — hence a sublist of the `none` result, preserving
original order and duplicates. -/
theorem extract_emojis_spec :
    (∀ text : String, extract_emojis text none =
        (text.data.filter isEmojiChar).map (fun c => String.mk [c]))
    ∧ extract_emojis "😂😂" none = ["😂", "😂"]
    ∧ (∀ text : String, ∀ e ∈ extract_emojis text none,
        ∃ c : Char, e = String.mk [c] ∧ isEmojiChar c = true
          ∧ isVariationSelector c = false)
    ∧ (∀ (text : String) (ws : List String),
        extract_emojis text (some ws) = (extract_emojis text none).filter
          (fun e => (ws.map remove_variation_selectors).contains e))
    ∧ ∀ (text : String) (ws : List String),
        (extract_emojis text (some ws)).Sublist (extract_emojis text none) := by
  have hnone : ∀ text : String, extract_emojis text none =
      (text.data.filter isEmojiChar).map (fun c => String.mk [c]) := by
    intro text
    show ((text.data.filter (fun c => !(isVariationSelector c))).filter
        isEmojiChar).map (fun c => String.mk [c]) = _
    rw [filter_emoji_remove_vs]
  have hmem : ∀ text : String, ∀ e ∈ extract_emojis text none,
      ∃ c : Char, e = String.mk [c] ∧ isEmojiChar c = true
        ∧ isVariationSelector c = false := by
    intro text e he
    rcases List.mem_map.1 he with ⟨c, hc, rfl⟩
    refine ⟨c, rfl, List.of_mem_filter hc, ?_⟩
    have hmem2 := List.mem_of_mem_filter hc
    have := List.of_mem_filter (p := fun c => !(isVariationSelector c)) hmem2
    simpa using this
  have hfilter : ∀ (text : String) (ws : List String),
      extract_emojis text (some ws) = (extract_emojis text none).filter
        (fun e => (ws.map remove_variation_selectors).contains e) := by
    intro text ws
    apply List.filter_congr
    intro e he
    rcases hmem text e he with ⟨c, rfl, _, hvs⟩
    have hfix : remove_variation_selectors (String.mk [c]) = String.mk [c] := by
      show String.mk ([c].filter _) = _
      simp [hvs]
    rw [hfix]
  refine ⟨hnone, by decide, hmem, hfilter, ?_⟩
  intro text ws
  rw [hfilter]
  exact List.filter_sublist _

/-- Witness for C6 at concrete inputs: the universal characterization at
the repository test's variation-selector text, and the per-entry form at
a duplicate-emoji text. -/
theorem extract_emojis_spec_witness :
    extract_emojis "Play ⚽️ or 👍🏽?" none =
      (("Play ⚽️ or 👍🏽?").data.filter isEmojiChar).map (fun c => String.mk [c])
    ∧ ∃ c : Char, "😂" = String.mk [c] ∧ isEmojiChar c = true
        ∧ isVariationSelector c = false :=
  ⟨extract_emojis_spec.1 "Play ⚽️ or 👍🏽?",
   extract_emojis_spec.2.2.1 "😂😂" "😂" (by decide)⟩

/-- Modelled from the spec: `check_ascii` of the missing
`torchmoji/word_generator.py` (spec §4.3 step 3): true iff every
character of the word is in the 0-127 range. -/
def check_ascii (w : String) : Bool :=
  w.data.all (fun c => c.toNat ≤ 127)

/-- Modelled from the spec: `convert_unicode_word` of the missing
`torchmoji/word_generator.py` (spec §4.3 step 3), as pinned down by the
repository's word-generator tests: an all-ASCII word is accepted
unchanged; a word with non-ASCII characters is accepted unchanged when
`allow_unicode_text` is true (the tests expect the identity result — the
escape notation in them denotes the characters themselves) and rejected
as `(false, "")` when it is false. -/
def convert_unicode_word (allow : Bool) (word : String) : Bool × String :=
  if check_ascii word then (true, word)
  else if allow then (true, word)
  else (false, "")

/-- Lowercase hexadecimal digit for `escapeNonAscii`. -/
def hexDigitLower (n : Nat) : Char :=
  if n < 10 then Char.ofNat (48 + n) else Char.ofNat (87 + n)

/-- Rendering of one character under claim C3's reading of the spec: a
non-ASCII character becomes its backslash-u escape sequence of four
lowercase hex digits, an ASCII character is unchanged. -/
def escapeChar (c : Char) : List Char :=
  if c.toNat ≤ 127 then [c]
  else
    [Char.ofNat 92, Char.ofNat 117,
     hexDigitLower (c.toNat / 4096 % 16), hexDigitLower (c.toNat / 256 % 16),
     hexDigitLower (c.toNat / 16 % 16), hexDigitLower (c.toNat % 16)]

/-- The escaped representation described by claim C3 and spec §4.3 step 3
(stated from the spec's words, for comparison with the behaviour the
repository's tests pin down). -/
def escapeNonAscii (w : String) : String :=
  String.mk ((w.data.map escapeChar).flatten)

/-- Errors of the Word Generator boundary (spec §7): the source raises a
generic value error for a non-text, non-bytes sentence
(`InvalidInputType`) and a decode error for invalid UTF-8 bytes. -/
inductive WordGenError
  | invalidInputType
  | decodeError
deriving DecidableEq, Repr

/-- Modelled from the spec: a raw sentence handed to the Word Generator
(spec §3, §9): a text string, a byte sequence, or any other value (such
as an integer), the latter being invalid input. -/
inductive PySentence
  | text (s : String)
  | bytes (bs : List Nat)
  | other (n : Int)

/-- Modelled from the spec: UTF-8 decoding of byte-sequence input
(spec §4.3 step 2); returns `none` on invalid UTF-8. -/
def utf8Decode : List Nat → Option (List Char)
  | [] => some []
  | b :: bs =>
    if b ≤ 0x7F then
      match utf8Decode bs with
      | some cs => some (Char.ofNat b :: cs)
      | none => none
    else if b < 0xC2 then none
    else if b ≤ 0xDF then
      match bs with
      | b2 :: rest =>
        if 0x80 ≤ b2 && b2 ≤ 0xBF then
          match utf8Decode rest with
          | some cs => some (Char.ofNat ((b - 0xC0) * 64 + (b2 - 0x80)) :: cs)
          | none => none
        else none
      | [] => none
    else if b ≤ 0xEF then
      match bs with
      | b2 :: b3 :: rest =>
        if (0x80 ≤ b2 && b2 ≤ 0xBF) && (0x80 ≤ b3 && b3 ≤ 0xBF)
            && !(b == 0xE0 && b2 < 0xA0) && !(b == 0xED && 0xA0 ≤ b2) then
          match utf8Decode rest with
          | some cs =>
            some (Char.ofNat ((b - 0xE0) * 4096 + (b2 - 0x80) * 64 + (b3 - 0x80)) :: cs)
          | none => none
        else none
      | _ => none
    else if b ≤ 0xF4 then
      match bs with
      | b2 :: b3 :: b4 :: rest =>
        if (0x80 ≤ b2 && b2 ≤ 0xBF) && (0x80 ≤ b3 && b3 ≤ 0xBF) &&
            (0x80 ≤ b4 && b4 ≤ 0xBF)
            && !(b == 0xF0 && b2 < 0x90) && !(b == 0xF4 && 0x90 ≤ b2) then
          match utf8Decode rest with
          | some cs =>
            some (Char.ofNat ((b - 0xF0) * 262144 + (b2 - 0x80) * 4096 +
              (b3 - 0x80) * 64 + (b4 - 0x80)) :: cs)
          | none => none
        else none
      | _ => none
    else none

/-- ASCII lowercasing of one character (spec §4.3 step 5). -/
def asciiToLower (c : Char) : Char :=
  if 65 ≤ c.toNat && c.toNat ≤ 90 then Char.ofNat (c.toNat + 32) else c

/-- Lowercased form of a token (spec §4.3 step 5). -/
def lowercaseWord (w : String) : String :=
  String.mk (w.data.map asciiToLower)

/-- Modelled from the spec: the per-sentence pipeline of the missing
`torchmoji/word_generator.py` on decoded text (spec §4.3 steps 3-5):
tokenize, lowercase, then gate each word through `convert_unicode_word`;
if any word is rejected the sentence yields the empty word list. -/
def process_sentence (allow : Bool) (s : String) : List String :=
  let ws := (tokenize s).map lowercaseWord
  if ws.all (fun w => (convert_unicode_word allow w).1) then
    ws.map (fun w => (convert_unicode_word allow w).2)
  else []

/-- Modelled from the spec: `get_words` of the missing
`torchmoji/word_generator.py` (spec §4.3): validates the input type,
decodes bytes as UTF-8, and runs the per-sentence pipeline. -/
def get_words (allow : Bool) (v : PySentence) : Except WordGenError (List String) :=
  match v with
  | .other _ => .error .invalidInputType
  | .text s => .ok (process_sentence allow s)
  | .bytes bs =>
    match utf8Decode bs with
    | none => .error .decodeError
    | some cs => .ok (process_sentence allow (String.mk cs))

/-- Counterexample to claim C3 as stated: with `allow_unicode_text` true
the result on `"č"` (U+010D) is the one-character word itself, not the
six-character backslash-u escape string the claim describes (the
repository test's expected literal denotes the character, not escape
text); and with `allow_unicode_text` false the all-ASCII word `"a"` is
returned as `(true, "a")`, not `(false, "")`. -/
theorem convert_unicode_word_counterexample :
    convert_unicode_word true (String.mk [Char.ofNat 0x010D]) ≠
      (true, escapeNonAscii (String.mk [Char.ofNat 0x010D]))
    ∧ convert_unicode_word false "a" ≠ (false, "") := by
  constructor <;> decide

/-- Claim C3 as amended: with `allow_unicode_text` true,
`convert_unicode_word` accepts every word unchanged, `(true, word)`; with
it false, an all-ASCII word is still accepted unchanged and a word
containing a non-ASCII character is rejected as `(false, "")`. -/
theorem convert_unicode_word_amended (w : String) :
    convert_unicode_word true w = (true, w)
    ∧ (check_ascii w = true → convert_unicode_word false w = (true, w))
    ∧ (check_ascii w = false → convert_unicode_word false w = (false, "")) := by
  unfold convert_unicode_word
  by_cases h : check_ascii w <;> simp [h]

/-- Witness for the amended C3 at concrete inputs, exercising both
hypotheses. -/
theorem convert_unicode_word_amended_witness :
    convert_unicode_word false "a" = (true, "a")
    ∧ convert_unicode_word false (String.mk [Char.ofNat 0x010D]) = (false, "") :=
  ⟨(convert_unicode_word_amended "a").2.1 (by decide),
   (convert_unicode_word_amended (String.mk [Char.ofNat 0x010D])).2.2 (by decide)⟩

/-- Claim C7: `get_words` fails with the invalid-input-type value error
exactly on sentences that are neither text nor bytes: every non-text,
non-bytes sentence produces it, and no text or byte-sequence sentence
ever does (invalid UTF-8 bytes produce the distinct decode error). -/
theorem get_words_type_check (allow : Bool) :
    (∀ n : Int, get_words allow (.other n) = .error .invalidInputType)
    ∧ (∀ s : String, get_words allow (.text s) ≠ .error .invalidInputType)
    ∧ ∀ bs : List Nat, get_words allow (.bytes bs) ≠ .error .invalidInputType := by
  refine ⟨fun n => rfl, fun s => by simp [get_words], fun bs => ?_⟩
  unfold get_words
  rcases h : utf8Decode bs with _ | cs <;> simp [h]

/-- Witness for C7 at a concrete input. -/
theorem get_words_type_check_witness :
    get_words true (.other 123) = .error .invalidInputType :=
  (get_words_type_check true).1 123

theorem isWs_of_nonascii {c : Char} (h : 127 < c.toNat) : isWs c = false := by
  simp only [isWs, Bool.or_eq_false_iff, beq_eq_false_iff_ne, ne_eq]
  omega

theorem asciiToLower_of_nonascii {c : Char} (h : 127 < c.toNat) :
    asciiToLower c = c := by
  unfold asciiToLower
  rw [if_neg]
  simp only [Bool.and_eq_true, decide_eq_true_eq, not_and]
  omega

/-- Claim C8: a sentence containing at least one non-ASCII character,
processed with `allow_unicode_text` false, yields the empty word list and
no error: the sentence is silently dropped. -/
theorem get_words_nonascii_dropped (s : String)
    (h : ∃ c ∈ s.data, 127 < c.toNat) :
    get_words false (.text s) = .ok [] := by
  rcases h with ⟨c, hc, hca⟩
  show Except.ok (process_sentence false s) = _
  unfold process_sentence
  rw [if_neg]
  intro hall
  have hcover := tokenize_data_flatten s
  have hcmem : c ∈ ((tokenize s).map String.data).flatten := by
    rw [hcover]
    exact List.mem_filter.2 ⟨hc, by simp [isWs_of_nonascii hca]⟩
  rcases List.mem_flatten.1 hcmem with ⟨td, htd, hctd⟩
  rcases List.mem_map.1 htd with ⟨t, ht, rfl⟩
  have hw : lowercaseWord t ∈ (tokenize s).map lowercaseWord :=
    List.mem_map.2 ⟨t, ht, rfl⟩
  have hcw : c ∈ (lowercaseWord t).data := by
    show c ∈ t.data.map asciiToLower
    exact List.mem_map.2 ⟨c, hctd, asciiToLower_of_nonascii hca⟩
  have hconv := (List.all_eq_true.1 hall) (lowercaseWord t) hw
  have hna : check_ascii (lowercaseWord t) = false := by
    by_contra hasc
    rw [Bool.not_eq_false] at hasc
    have := List.all_eq_true.1
      (show (lowercaseWord t).data.all (fun c => c.toNat ≤ 127) = true from hasc) c hcw
    simp only [decide_eq_true_eq] at this
    omega
  rw [convert_unicode_word, hna] at hconv
  simp at hconv

/-- Witness for C8 at the repository test's sentence. -/
theorem get_words_nonascii_dropped_witness :
    get_words false (.text "Dobrý den, jak se máš?") = .ok [] :=
  get_words_nonascii_dropped "Dobrý den, jak se máš?" (by decide)


/-- Ekman emotion names of `torchmoji/emojis.py` (`EmotionName`). -/
inductive Emotion
  | happiness | sadness | fear | disgust | anger | surprise | contempt | neutral
deriving DecidableEq, Repr

/-- Intensity labels of `torchmoji/emojis.py` rankings. -/
inductive Intensity
  | flat | weak | strong
deriving DecidableEq, Repr

/-- Ranking information mapping an emoji to an Ekman core emotion
(`EmotionRanking` of `torchmoji/emojis.py`); `none` intensity embeds
Python's `None`. -/
structure EmotionRanking where
  emotion : Emotion
  intensity : Option Intensity
deriving DecidableEq, Repr

/-- All eight emotion names, in `EmotionName` order. -/
def allEmotions : List Emotion :=
  [.happiness, .sadness, .fear, .disgust, .anger, .surprise, .contempt, .neutral]

/-- The non-neutral emotion names (`NonNeutralEmotionName`). -/
def NonNeutralEmotions : List Emotion :=
  allEmotions.filter (fun e => e != Emotion.neutral)

/-- Validation of `EmotionRanking.__post_init__`: a neutral ranking cannot
carry an intensity and a non-neutral ranking must carry one (the emotion
name itself is always valid here, being an inductive). -/
def mkEmotionRanking (e : Emotion) (i : Option Intensity) :
    Except String EmotionRanking :=
  if e = Emotion.neutral then
    match i with
    | none => .ok ⟨e, none⟩
    | some _ => .error "Neutral emotion cannot have an intensity."
  else
    match i with
    | some j => .ok ⟨e, some j⟩
    | none => .error "Invalid intensity."

/-- Loop of `_apply_intensity_scheme`: the first two non-neutral entries
keep their given intensity (defaulting to weak), later non-neutral
entries become flat, neutral entries keep no intensity. -/
def applyIntensityGo : Nat → List EmotionRanking → List EmotionRanking
  | _, [] => []
  | seen, r :: rest =>
    if r.emotion = Emotion.neutral then
      ⟨Emotion.neutral, none⟩ :: applyIntensityGo seen rest
    else
      (⟨r.emotion, some (if seen + 1 ≤ 2 then
          match r.intensity with
          | some j => j
          | none => Intensity.weak
        else Intensity.flat)⟩ : EmotionRanking) :: applyIntensityGo (seen + 1) rest

/-- `_apply_intensity_scheme` of `torchmoji/emojis.py`. -/
def applyIntensityScheme (rs : List EmotionRanking) : List EmotionRanking :=
  applyIntensityGo 0 rs

/-- Loop of `_ranking`: validate each entry and reject duplicates. -/
def rankingAux : List Emotion → List (Emotion × Option Intensity) →
    Except String (List EmotionRanking)
  | _, [] => .ok []
  | seen, (e, i) :: rest =>
    match mkEmotionRanking e i with
    | .error msg => .error msg
    | .ok r =>
      if seen.contains r.emotion then .error "Duplicate emotion in ranking."
      else
        match rankingAux (r.emotion :: seen) rest with
        | .error msg => .error msg
        | .ok rs => .ok (r :: rs)

/-- `_ranking` of `torchmoji/emojis.py`: validates entries, rejects
duplicate and missing emotions, then applies the intensity scheme. -/
def ranking (rs : List (Emotion × Option Intensity)) :
    Except String (List EmotionRanking) :=
  match rankingAux [] rs with
  | .error msg => .error msg
  | .ok ordered =>
    if allEmotions.all (fun e => (ordered.map (fun r => r.emotion)).contains e) then
      .ok (applyIntensityScheme ordered)
    else .error "Missing emotions in ranking."

/-- `EMOJI_ALIASES` of `torchmoji/emojis.py`: the 64 emoji aliases in
model output order. -/
def EMOJI_ALIASES : List String :=
  [
   ":joy:", ":unamused:", ":weary:", ":sob:",
   ":heart_eyes:", ":pensive:", ":ok_hand:", ":blush:",
   ":heart:", ":smirk:", ":grin:", ":notes:",
   ":flushed:", ":100:", ":sleeping:", ":relieved:",
   ":relaxed:", ":raised_hands:", ":two_hearts:", ":expressionless:",
   ":sweat_smile:", ":pray:", ":confused:", ":kissing_heart:",
   ":heartbeat:", ":neutral_face:", ":information_desk_person:", ":disappointed:",
   ":see_no_evil:", ":tired_face:", ":v:", ":sunglasses:",
   ":rage:", ":thumbsup:", ":cry:", ":sleepy:",
   ":yum:", ":triumph:", ":hand:", ":mask:",
   ":clap:", ":eyes:", ":gun:", ":persevere:",
   ":smiling_imp:", ":sweat:", ":broken_heart:", ":yellow_heart:",
   ":musical_note:", ":speak_no_evil:", ":wink:", ":skull:",
   ":confounded:", ":smile:", ":stuck_out_tongue_winking_eye:", ":angry:",
   ":no_good:", ":muscle:", ":facepunch:", ":purple_heart:",
   ":sparkling_heart:", ":blue_heart:", ":grimacing:", ":sparkles:"]

/-- The literal `_ranking` arguments of the `EMOJI_EMOTION_RANKS` dict of
`torchmoji/emojis.py`, alias by alias in source order. -/
def RAW_RANKS_0 : List (String × List (Emotion × Option Intensity)) := [
  (":joy:",
   [(.happiness, some .strong), (.surprise, some .strong), (.neutral, none), (.sadness, some .weak),
    (.fear, some .weak), (.disgust, some .weak), (.anger, some .weak), (.contempt, some .weak)]),
  (":unamused:",
   [(.contempt, some .strong), (.anger, some .weak), (.disgust, some .weak), (.neutral, none),
    (.sadness, some .weak), (.fear, some .weak), (.surprise, some .weak), (.happiness, some .weak)]),
  (":weary:",
   [(.sadness, some .strong), (.fear, some .strong), (.disgust, some .weak), (.anger, some .weak),
    (.surprise, some .weak), (.neutral, none), (.contempt, some .weak), (.happiness, some .weak)]),
  (":sob:",
   [(.sadness, some .strong), (.fear, some .strong), (.anger, some .weak), (.disgust, some .weak),
    (.surprise, some .weak), (.neutral, none), (.contempt, some .weak), (.happiness, some .weak)]),
  (":heart_eyes:",
   [(.happiness, some .strong), (.surprise, some .strong), (.neutral, none), (.contempt, some .weak),
    (.sadness, some .weak), (.fear, some .weak), (.disgust, some .weak), (.anger, some .weak)]),
  (":pensive:",
   [(.sadness, some .weak), (.neutral, none), (.fear, some .weak), (.disgust, some .weak),
    (.happiness, some .weak), (.anger, some .weak), (.contempt, some .weak), (.surprise, some .weak)]),
  (":ok_hand:",
   [(.happiness, some .weak), (.neutral, none), (.surprise, some .weak), (.contempt, some .weak),
    (.anger, some .weak), (.sadness, some .weak), (.fear, some .weak), (.disgust, some .weak)]),
  (":blush:",
   [(.happiness, some .weak), (.surprise, some .weak), (.neutral, none), (.sadness, some .weak),
    (.fear, some .weak), (.contempt, some .weak), (.disgust, some .weak), (.anger, some .weak)])
]

def RAW_RANKS_1 : List (String × List (Emotion × Option Intensity)) := [
  (":heart:",
   [(.happiness, some .strong), (.neutral, none), (.sadness, some .weak), (.surprise, some .weak),
    (.contempt, some .weak), (.fear, some .weak), (.disgust, some .weak), (.anger, some .weak)]),
  (":smirk:",
   [(.contempt, some .strong), (.happiness, some .weak), (.anger, some .weak), (.disgust, some .weak),
    (.neutral, none), (.surprise, some .weak), (.fear, some .weak), (.sadness, some .weak)]),
  (":grin:",
   [(.happiness, some .strong), (.surprise, some .weak), (.neutral, none), (.contempt, some .weak),
    (.anger, some .weak), (.fear, some .weak), (.disgust, some .weak), (.sadness, some .weak)]),
  (":notes:",
   [(.happiness, some .weak), (.surprise, some .weak), (.neutral, none), (.sadness, some .weak),
    (.fear, some .weak), (.contempt, some .weak), (.disgust, some .weak), (.anger, some .weak)]),
  (":flushed:",
   [(.surprise, some .strong), (.fear, some .strong), (.happiness, some .weak), (.sadness, some .weak),
    (.neutral, none), (.disgust, some .weak), (.anger, some .weak), (.contempt, some .weak)]),
  (":100:",
   [(.happiness, some .strong), (.anger, some .strong), (.surprise, some .weak), (.neutral, none),
    (.contempt, some .weak), (.sadness, some .weak), (.fear, some .weak), (.disgust, some .weak)]),
  (":sleeping:",
   [(.neutral, none), (.sadness, some .weak), (.happiness, some .weak), (.fear, some .weak),
    (.surprise, some .weak), (.disgust, some .weak), (.anger, some .weak), (.contempt, some .weak)]),
  (":relieved:",
   [(.happiness, some .weak), (.neutral, none), (.surprise, some .weak), (.fear, some .weak),
    (.sadness, some .weak), (.disgust, some .weak), (.anger, some .weak), (.contempt, some .weak)])
]

def RAW_RANKS_2 : List (String × List (Emotion × Option Intensity)) := [
  (":relaxed:",
   [(.happiness, some .weak), (.neutral, none), (.sadness, some .weak), (.surprise, some .weak),
    (.fear, some .weak), (.disgust, some .weak), (.anger, some .weak), (.contempt, some .weak)]),
  (":raised_hands:",
   [(.happiness, some .strong), (.surprise, some .strong), (.neutral, none), (.anger, some .weak),
    (.sadness, some .weak), (.fear, some .weak), (.disgust, some .weak), (.contempt, some .weak)]),
  (":two_hearts:",
   [(.happiness, some .strong), (.neutral, none), (.surprise, some .weak), (.sadness, some .weak),
    (.fear, some .weak), (.disgust, some .weak), (.anger, some .weak), (.contempt, some .weak)]),
  (":expressionless:",
   [(.neutral, none), (.contempt, some .weak), (.sadness, some .weak), (.anger, some .weak),
    (.disgust, some .weak), (.fear, some .weak), (.surprise, some .weak), (.happiness, some .weak)]),
  (":sweat_smile:",
   [(.happiness, some .weak), (.surprise, some .weak), (.fear, some .weak), (.neutral, none),
    (.sadness, some .weak), (.disgust, some .weak), (.anger, some .weak), (.contempt, some .weak)]),
  (":pray:",
   [(.sadness, some .weak), (.fear, some .weak), (.happiness, some .weak), (.surprise, some .weak),
    (.neutral, none), (.disgust, some .weak), (.anger, some .weak), (.contempt, some .weak)]),
  (":confused:",
   [(.sadness, some .weak), (.fear, some .weak), (.disgust, some .weak), (.anger, some .weak),
    (.neutral, none), (.surprise, some .weak), (.contempt, some .weak), (.happiness, some .weak)]),
  (":kissing_heart:",
   [(.happiness, some .weak), (.neutral, none), (.surprise, some .weak), (.sadness, some .weak),
    (.fear, some .weak), (.disgust, some .weak), (.anger, some .weak), (.contempt, some .weak)])
]

def RAW_RANKS_3 : List (String × List (Emotion × Option Intensity)) := [
  (":heartbeat:",
   [(.happiness, some .strong), (.neutral, none), (.sadness, some .weak), (.surprise, some .weak),
    (.fear, some .weak), (.disgust, some .weak), (.anger, some .weak), (.contempt, some .weak)]),
  (":neutral_face:",
   [(.neutral, none), (.sadness, some .weak), (.contempt, some .weak), (.fear, some .weak),
    (.disgust, some .weak), (.anger, some .weak), (.happiness, some .weak), (.surprise, some .weak)]),
  (":information_desk_person:",
   [(.contempt, some .strong), (.happiness, some .weak), (.neutral, none), (.anger, some .weak),
    (.disgust, some .weak), (.surprise, some .weak), (.fear, some .weak), (.sadness, some .weak)]),
  (":disappointed:",
   [(.sadness, some .strong), (.neutral, none), (.fear, some .weak), (.disgust, some .weak),
    (.anger, some .weak), (.surprise, some .weak), (.contempt, some .weak), (.happiness, some .weak)]),
  (":see_no_evil:",
   [(.surprise, some .weak), (.fear, some .strong), (.happiness, some .weak), (.sadness, some .weak),
    (.neutral, none), (.disgust, some .weak), (.anger, some .weak), (.contempt, some .weak)]),
  (":tired_face:",
   [(.sadness, some .strong), (.neutral, none), (.fear, some .weak), (.disgust, some .weak),
    (.anger, some .weak), (.surprise, some .weak), (.contempt, some .weak), (.happiness, some .weak)]),
  (":v:",
   [(.happiness, some .weak), (.neutral, none), (.surprise, some .weak), (.anger, some .weak),
    (.sadness, some .weak), (.fear, some .weak), (.disgust, some .weak), (.contempt, some .weak)]),
  (":sunglasses:",
   [(.happiness, some .weak), (.contempt, some .strong), (.neutral, none), (.anger, some .weak),
    (.surprise, some .weak), (.sadness, some .weak), (.fear, some .weak), (.disgust, some .weak)])
]

def RAW_RANKS_4 : List (String × List (Emotion × Option Intensity)) := [
  (":rage:",
   [(.anger, some .strong), (.disgust, some .strong), (.contempt, some .strong), (.fear, some .weak),
    (.surprise, some .weak), (.sadness, some .weak), (.happiness, some .weak), (.neutral, none)]),
  (":thumbsup:",
   [(.happiness, some .weak), (.neutral, none), (.contempt, some .weak), (.surprise, some .weak),
    (.sadness, some .weak), (.fear, some .weak), (.disgust, some .weak), (.anger, some .weak)]),
  (":cry:",
   [(.sadness, some .strong), (.fear, some .strong), (.neutral, none), (.anger, some .weak),
    (.surprise, some .weak), (.disgust, some .weak), (.contempt, some .weak), (.happiness, some .weak)]),
  (":sleepy:",
   [(.neutral, none), (.sadness, some .weak), (.fear, some .weak), (.surprise, some .weak),
    (.happiness, some .weak), (.disgust, some .weak), (.anger, some .weak), (.contempt, some .weak)]),
  (":yum:",
   [(.happiness, some .weak), (.surprise, some .weak), (.disgust, some .weak), (.neutral, none),
    (.sadness, some .weak), (.fear, some .weak), (.anger, some .weak), (.contempt, some .weak)]),
  (":triumph:",
   [(.anger, some .strong), (.happiness, some .strong), (.contempt, some .strong), (.surprise, some .weak),
    (.disgust, some .weak), (.fear, some .weak), (.sadness, some .weak), (.neutral, none)]),
  (":hand:",
   [(.neutral, none), (.anger, some .weak), (.contempt, some .weak), (.disgust, some .weak),
    (.surprise, some .weak), (.happiness, some .weak), (.fear, some .weak), (.sadness, some .weak)]),
  (":mask:",
   [(.fear, some .strong), (.disgust, some .strong), (.sadness, some .weak), (.neutral, none),
    (.anger, some .weak), (.surprise, some .weak), (.contempt, some .weak), (.happiness, some .weak)])
]

def RAW_RANKS_5 : List (String × List (Emotion × Option Intensity)) := [
  (":clap:",
   [(.happiness, some .strong), (.surprise, some .strong), (.neutral, none), (.contempt, some .weak),
    (.anger, some .weak), (.sadness, some .weak), (.fear, some .weak), (.disgust, some .weak)]),
  (":eyes:",
   [(.surprise, some .weak), (.fear, some .weak), (.neutral, none), (.anger, some .weak),
    (.disgust, some .weak), (.contempt, some .weak), (.sadness, some .weak), (.happiness, some .weak)]),
  (":gun:",
   [(.anger, some .strong), (.fear, some .strong), (.disgust, some .strong), (.contempt, some .strong),
    (.surprise, some .weak), (.sadness, some .weak), (.neutral, none), (.happiness, some .weak)]),
  (":persevere:",
   [(.sadness, some .strong), (.anger, some .weak), (.fear, some .weak), (.neutral, none),
    (.disgust, some .weak), (.surprise, some .weak), (.contempt, some .weak), (.happiness, some .weak)]),
  (":smiling_imp:",
   [(.anger, some .strong), (.contempt, some .strong), (.happiness, some .weak), (.disgust, some .weak),
    (.surprise, some .weak), (.fear, some .weak), (.sadness, some .weak), (.neutral, none)]),
  (":sweat:",
   [(.fear, some .weak), (.surprise, some .weak), (.sadness, some .weak), (.neutral, none),
    (.disgust, some .weak), (.anger, some .weak), (.contempt, some .weak), (.happiness, some .weak)]),
  (":broken_heart:",
   [(.sadness, some .strong), (.anger, some .strong), (.fear, some .weak), (.disgust, some .weak),
    (.contempt, some .weak), (.surprise, some .weak), (.neutral, none), (.happiness, some .weak)]),
  (":yellow_heart:",
   [(.happiness, some .weak), (.neutral, none), (.surprise, some .weak), (.sadness, some .weak),
    (.fear, some .weak), (.disgust, some .weak), (.anger, some .weak), (.contempt, some .weak)])
]

def RAW_RANKS_6 : List (String × List (Emotion × Option Intensity)) := [
  (":musical_note:",
   [(.happiness, some .weak), (.surprise, some .weak), (.neutral, none), (.sadness, some .weak),
    (.fear, some .weak), (.contempt, some .weak), (.disgust, some .weak), (.anger, some .weak)]),
  (":speak_no_evil:",
   [(.fear, some .strong), (.surprise, some .weak), (.sadness, some .weak), (.neutral, none),
    (.disgust, some .weak), (.anger, some .weak), (.contempt, some .weak), (.happiness, some .weak)]),
  (":wink:",
   [(.happiness, some .weak), (.contempt, some .strong), (.surprise, some .weak), (.neutral, none),
    (.anger, some .weak), (.sadness, some .weak), (.fear, some .weak), (.disgust, some .weak)]),
  (":skull:",
   [(.fear, some .strong), (.sadness, some .strong), (.disgust, some .strong), (.anger, some .weak),
    (.contempt, some .weak), (.surprise, some .weak), (.neutral, none), (.happiness, some .weak)]),
  (":confounded:",
   [(.sadness, some .strong), (.fear, some .weak), (.disgust, some .weak), (.anger, some .weak),
    (.surprise, some .weak), (.neutral, none), (.contempt, some .weak), (.happiness, some .weak)]),
  (":smile:",
   [(.happiness, some .weak), (.neutral, none), (.surprise, some .weak), (.contempt, some .weak),
    (.sadness, some .weak), (.fear, some .weak), (.disgust, some .weak), (.anger, some .weak)]),
  (":stuck_out_tongue_winking_eye:",
   [(.happiness, some .strong), (.surprise, some .strong), (.contempt, some .strong), (.neutral, none),
    (.anger, some .weak), (.fear, some .weak), (.disgust, some .weak), (.sadness, some .weak)]),
  (":angry:",
   [(.anger, some .strong), (.disgust, some .strong), (.contempt, some .strong), (.fear, some .weak),
    (.sadness, some .weak), (.surprise, some .weak), (.happiness, some .weak), (.neutral, none)])
]

def RAW_RANKS_7 : List (String × List (Emotion × Option Intensity)) := [
  (":no_good:",
   [(.disgust, some .strong), (.anger, some .strong), (.contempt, some .strong), (.sadness, some .weak),
    (.fear, some .weak), (.surprise, some .weak), (.neutral, none), (.happiness, some .weak)]),
  (":muscle:",
   [(.happiness, some .strong), (.anger, some .strong), (.contempt, some .strong), (.neutral, none),
    (.surprise, some .weak), (.fear, some .weak), (.sadness, some .weak), (.disgust, some .weak)]),
  (":facepunch:",
   [(.anger, some .strong), (.contempt, some .strong), (.fear, some .strong), (.disgust, some .strong),
    (.surprise, some .weak), (.sadness, some .weak), (.neutral, none), (.happiness, some .weak)]),
  (":purple_heart:",
   [(.happiness, some .weak), (.neutral, none), (.surprise, some .weak), (.sadness, some .weak),
    (.fear, some .weak), (.disgust, some .weak), (.anger, some .weak), (.contempt, some .weak)]),
  (":sparkling_heart:",
   [(.happiness, some .strong), (.surprise, some .weak), (.neutral, none), (.sadness, some .weak),
    (.fear, some .weak), (.disgust, some .weak), (.anger, some .weak), (.contempt, some .weak)]),
  (":blue_heart:",
   [(.happiness, some .weak), (.neutral, none), (.sadness, some .weak), (.surprise, some .weak),
    (.fear, some .weak), (.disgust, some .weak), (.anger, some .weak), (.contempt, some .weak)]),
  (":grimacing:",
   [(.fear, some .strong), (.surprise, some .strong), (.disgust, some .weak), (.anger, some .weak),
    (.sadness, some .weak), (.neutral, none), (.contempt, some .weak), (.happiness, some .weak)]),
  (":sparkles:",
   [(.happiness, some .weak), (.surprise, some .weak), (.neutral, none), (.sadness, some .weak),
    (.fear, some .weak), (.disgust, some .weak), (.anger, some .weak), (.contempt, some .weak)])
]

def RAW_RANKS : List (String × List (Emotion × Option Intensity)) :=
  RAW_RANKS_0 ++ RAW_RANKS_1 ++ RAW_RANKS_2 ++ RAW_RANKS_3 ++
    RAW_RANKS_4 ++ RAW_RANKS_5 ++ RAW_RANKS_6 ++ RAW_RANKS_7

/-- `EMOJI_EMOTION_RANKS` of `torchmoji/emojis.py`, as an association
list; each value carries the `Except` of `_ranking` (in Python a raised
error would abort the module import). -/
def EMOJI_EMOTION_RANKS : List (String × Except String (List EmotionRanking)) :=
  RAW_RANKS.map (fun p => (p.1, ranking p.2))


/-- Well-formedness check of one ranking tuple, mirroring claim C9: every
emotion appears exactly once, neutral carries no intensity, non-neutral
entries carry one. -/
def ranksOk (rs : List EmotionRanking) : Bool :=
  (allEmotions.all (fun e => rs.countP (fun r => r.emotion == e) == 1))
  && rs.all (fun r =>
      if r.emotion == Emotion.neutral then r.intensity == none
      else !(r.intensity == none))

/-- Well-formedness of the `EMOJI_EMOTION_RANKS` entry for one alias. -/
def ranksEntryOk (ali : String) : Bool :=
  match EMOJI_EMOTION_RANKS.lookup ali with
  | some (Except.ok rs) => ranksOk rs
  | _ => false

theorem ranksEntryOk_elim {a : String} (h : ranksEntryOk a = true) :
    ∃ rs, EMOJI_EMOTION_RANKS.lookup a = some (Except.ok rs) ∧ ranksOk rs = true := by
  unfold ranksEntryOk at h
  rcases hl : EMOJI_EMOTION_RANKS.lookup a with _ | v
  · rw [hl] at h
    exact absurd h (by simp)
  · rcases v with msg | rs
    · rw [hl] at h
      simp at h
    · rw [hl] at h
      exact ⟨rs, rfl, h⟩

theorem ranksOk_elim {rs : List EmotionRanking} (h : ranksOk rs = true) :
    (∀ e : Emotion, rs.countP (fun r => r.emotion == e) = 1)
    ∧ ∀ r ∈ rs, (r.emotion = Emotion.neutral → r.intensity = none)
        ∧ (r.emotion ≠ Emotion.neutral →
            r.intensity = some Intensity.flat ∨ r.intensity = some Intensity.weak
              ∨ r.intensity = some Intensity.strong) := by
  unfold ranksOk at h
  rw [Bool.and_eq_true] at h
  obtain ⟨h1, h2⟩ := h
  constructor
  · intro e
    have he : e ∈ allEmotions := by cases e <;> decide
    have := List.all_eq_true.1 h1 e he
    simpa using this
  · intro r hr
    have hb := List.all_eq_true.1 h2 r hr
    constructor
    · intro he
      rw [if_pos (by simp [he])] at hb
      exact eq_of_beq hb
    · intro hne
      rw [if_neg (by simp [hne])] at hb
      rcases hi : r.intensity with _ | j
      · rw [hi] at hb
        simp at hb
      · cases j
        · exact Or.inl rfl
        · exact Or.inr (Or.inl rfl)
        · exact Or.inr (Or.inr rfl)

/-- Claim C9: for every alias in `EMOJI_ALIASES`, `EMOJI_EMOTION_RANKS`
contains a successfully built ranking tuple that lists each of the eight
emotion names exactly once; in every such tuple the neutral entry carries
no intensity and every non-neutral entry carries intensity flat, weak or
strong. -/
theorem emoji_emotion_ranks_wellformed :
    ∀ a ∈ EMOJI_ALIASES, ∃ rs,
      EMOJI_EMOTION_RANKS.lookup a = some (Except.ok rs)
      ∧ (∀ e : Emotion, rs.countP (fun r => r.emotion == e) = 1)
      ∧ ∀ r ∈ rs, (r.emotion = Emotion.neutral → r.intensity = none)
          ∧ (r.emotion ≠ Emotion.neutral →
              r.intensity = some Intensity.flat ∨ r.intensity = some Intensity.weak
                ∨ r.intensity = some Intensity.strong) := by
  have hall : ∀ a ∈ EMOJI_ALIASES, ranksEntryOk a = true := by decide
  intro a ha
  obtain ⟨rs, hl, hok⟩ := ranksEntryOk_elim (hall a ha)
  obtain ⟨hcnt, hint⟩ := ranksOk_elim hok
  exact ⟨rs, hl, hcnt, hint⟩

/-- Witness for C9 at the first alias. -/
theorem emoji_emotion_ranks_wellformed_witness :
    ":joy:" ∈ EMOJI_ALIASES ∧ ∃ rs,
      EMOJI_EMOTION_RANKS.lookup ":joy:" = some (Except.ok rs)
      ∧ (∀ e : Emotion, rs.countP (fun r => r.emotion == e) = 1)
      ∧ ∀ r ∈ rs, (r.emotion = Emotion.neutral → r.intensity = none)
          ∧ (r.emotion ≠ Emotion.neutral →
              r.intensity = some Intensity.flat ∨ r.intensity = some Intensity.weak
                ∨ r.intensity = some Intensity.strong) :=
  ⟨by decide, emoji_emotion_ranks_wellformed ":joy:" (by decide)⟩


/-- `get_emotion_rankings` of `torchmoji/emojis.py`: look an alias up in
`EMOJI_EMOTION_RANKS`.  In Python a missing alias raises a key error and
a failed `_ranking` aborts the import; both cases are unreachable for the
aliases of `EMOJI_ALIASES` (see `emoji_emotion_ranks_wellformed`) and are
mapped to the empty tuple here. -/
def get_emotion_rankings (ali : String) : List EmotionRanking :=
  match EMOJI_EMOTION_RANKS.lookup ali with
  | some (Except.ok rs) => rs
  | _ => []

/-- Scan loop of `select_accessible_ranking`: return the first ranking
whose emotion is allowed and whose intensity passes the weak/strong
filters (no intensity and flat always pass). -/
def selectFrom (allowed weakAllowed strongAllowed : List Emotion) :
    List EmotionRanking → Option EmotionRanking
  | [] => none
  | r :: rest =>
    if r.emotion ∈ allowed then
      if r.intensity = none ∨ r.intensity = some Intensity.flat then some r
      else if r.intensity = some Intensity.weak ∧ r.emotion ∈ weakAllowed then some r
      else if r.intensity = some Intensity.strong ∧ r.emotion ∈ strongAllowed then some r
      else selectFrom allowed weakAllowed strongAllowed rest
    else selectFrom allowed weakAllowed strongAllowed rest

/-- `select_accessible_ranking` of `torchmoji/emojis.py`: the weak and
strong filters default to all non-neutral emotions. -/
def select_accessible_ranking (ali : String) (allowed : List Emotion)
    (weakE strongE : Option (List Emotion)) : Option EmotionRanking :=
  selectFrom allowed (weakE.getD NonNeutralEmotions) (strongE.getD NonNeutralEmotions)
    (get_emotion_rankings ali)

/-- Selection loop of `filter_emojis_by_emotion`: walk the indices in
order, keep those with an accessible ranking, and stop once `lim`
selections have been collected (the loop is entered with `1 ≤ lim`). -/
def collectSelections (allowed : List Emotion) (weakE strongE : Option (List Emotion)) :
    Nat → List Nat → List (Nat × EmotionRanking)
  | _, [] => []
  | lim, i :: rest =>
    match select_accessible_ranking (EMOJI_ALIASES.getD i "") allowed weakE strongE with
    | none => collectSelections allowed weakE strongE lim rest
    | some r =>
      if lim ≤ 1 then [(i, r)]
      else (i, r) :: collectSelections allowed weakE strongE (lim - 1) rest

/-- `filter_emojis_by_emotion` of `torchmoji/emojis.py`: reject a
probability vector whose length differs from the alias count, clamp the
limit into `1..64`, order the indices by descending probability (the
floats of the source are modelled as rationals, which the code only
compares), and collect the accessible selections. -/
def filter_emojis_by_emotion (probs : List ℚ) (limit : Int) (allowed : List Emotion)
    (weakE strongE : Option (List Emotion)) :
    Except String (List (Nat × EmotionRanking)) :=
  if probs.length ≠ EMOJI_ALIASES.length then
    Except.error
      "Probability count does not match number of emoji aliases; cannot filter by emotion."
  else
    Except.ok (collectSelections allowed weakE strongE
      (max 1 (min limit (EMOJI_ALIASES.length : Int))).toNat
      ((List.range probs.length).mergeSort
        (fun i j => decide (probs.getD j 0 ≤ probs.getD i 0))))

theorem selectFrom_emotion_mem {allowed wA sA : List Emotion} :
    ∀ {l : List EmotionRanking} {r : EmotionRanking},
      selectFrom allowed wA sA l = some r → r.emotion ∈ allowed := by
  intro l
  induction l with
  | nil => intro r h; simp [selectFrom] at h
  | cons x rest ih =>
    intro r h
    unfold selectFrom at h
    split_ifs at h with h1 h2 h3 h4
    · cases h; exact h1
    · cases h; exact h1
    · cases h; exact h1
    · exact ih h
    · exact ih h

theorem collectSelections_length (allowed : List Emotion)
    (weakE strongE : Option (List Emotion)) :
    ∀ (lim : Nat) (idxs : List Nat), 1 ≤ lim →
      (collectSelections allowed weakE strongE lim idxs).length ≤ lim := by
  intro lim idxs
  induction idxs generalizing lim with
  | nil => intro h; simp [collectSelections]
  | cons i rest ih =>
    intro h
    unfold collectSelections
    rcases hsel : select_accessible_ranking (EMOJI_ALIASES.getD i "") allowed weakE strongE
      with _ | r
    · exact ih lim h
    · by_cases hl : lim ≤ 1
      · simp only [if_pos hl, List.length_cons, List.length_nil]
        omega
      · simp only [if_neg hl, List.length_cons]
        have := ih (lim - 1) (by omega)
        omega

theorem collectSelections_fst_sublist (allowed : List Emotion)
    (weakE strongE : Option (List Emotion)) :
    ∀ (lim : Nat) (idxs : List Nat),
      ((collectSelections allowed weakE strongE lim idxs).map Prod.fst).Sublist idxs := by
  intro lim idxs
  induction idxs generalizing lim with
  | nil => simp [collectSelections]
  | cons i rest ih =>
    unfold collectSelections
    rcases hsel : select_accessible_ranking (EMOJI_ALIASES.getD i "") allowed weakE strongE
      with _ | r
    · exact (ih lim).cons i
    · by_cases hl : lim ≤ 1
      · simp only [if_pos hl, List.map_cons, List.map_nil]
        exact (List.nil_sublist rest).cons₂ i
      · simp only [if_neg hl, List.map_cons]
        exact (ih (lim - 1)).cons₂ i

theorem collectSelections_mem (allowed : List Emotion)
    (weakE strongE : Option (List Emotion)) :
    ∀ (lim : Nat) (idxs : List Nat),
      ∀ p ∈ collectSelections allowed weakE strongE lim idxs,
        select_accessible_ranking (EMOJI_ALIASES.getD p.1 "") allowed weakE strongE =
          some p.2 := by
  intro lim idxs
  induction idxs generalizing lim with
  | nil => simp [collectSelections]
  | cons i rest ih =>
    intro p hp
    unfold collectSelections at hp
    rcases hsel : select_accessible_ranking (EMOJI_ALIASES.getD i "") allowed weakE strongE
      with _ | r
    · rw [hsel] at hp
      exact ih lim p hp
    · rw [hsel] at hp
      have hp2 : p ∈ (if lim ≤ 1 then [(i, r)]
          else (i, r) :: collectSelections allowed weakE strongE (lim - 1) rest) := hp
      by_cases hl : lim ≤ 1
      · rw [if_pos hl] at hp2
        rcases List.mem_singleton.1 hp2 with rfl
        exact hsel
      · rw [if_neg hl] at hp2
        rcases List.mem_cons.1 hp2 with rfl | hmem
        · exact hsel
        · exact ih (lim - 1) p hmem

/-- Claim C10: `filter_emojis_by_emotion` fails with a value error exactly
when the probability count differs from the 64 emoji aliases; otherwise
it returns at most `max 1 (min limit 64)` index/ranking pairs whose
indices are ordered by descending probability and whose rankings all
carry an allowed emotion. -/
theorem filter_emojis_by_emotion_spec (probs : List ℚ) (limit : Int)
    (allowed : List Emotion) (weakE strongE : Option (List Emotion)) :
    ((∃ msg, filter_emojis_by_emotion probs limit allowed weakE strongE =
        Except.error msg) ↔ probs.length ≠ 64)
    ∧ (probs.length = 64 →
        ∃ sels, filter_emojis_by_emotion probs limit allowed weakE strongE =
            Except.ok sels
          ∧ sels.length ≤ (max 1 (min limit 64)).toNat
          ∧ sels.Pairwise (fun a b => probs.getD b.1 0 ≤ probs.getD a.1 0)
          ∧ ∀ p ∈ sels, p.2.emotion ∈ allowed) := by
  have hlen : EMOJI_ALIASES.length = 64 := rfl
  constructor
  · constructor
    · intro ⟨msg, hmsg⟩
      unfold filter_emojis_by_emotion at hmsg
      rw [hlen] at hmsg
      by_cases h : probs.length ≠ 64
      · exact h
      · rw [if_neg h] at hmsg
        exact absurd hmsg (by simp)
    · intro h
      refine ⟨"Probability count does not match number of emoji aliases; cannot filter by emotion.", ?_⟩
      unfold filter_emojis_by_emotion
      rw [hlen, if_pos h]
  · intro h
    have hone : (1 : Int) ≤ max 1 (min limit 64) := le_max_left ..
    refine ⟨collectSelections allowed weakE strongE
        ((max 1 (min limit 64)).toNat)
        ((List.range probs.length).mergeSort
          (fun i j => decide (probs.getD j 0 ≤ probs.getD i 0))), ?_, ?_, ?_, ?_⟩
    · unfold filter_emojis_by_emotion
      rw [hlen, if_neg (by omega)]
      norm_num
    · apply collectSelections_length
      omega
    · have hsorted : ((List.range probs.length).mergeSort
          (fun i j => decide (probs.getD j 0 ≤ probs.getD i 0))).Pairwise
            (fun i j => probs.getD j 0 ≤ probs.getD i 0) := by
        have hbool : ((List.range probs.length).mergeSort
            (fun i j => decide (probs.getD j 0 ≤ probs.getD i 0))).Pairwise
              (fun i j => decide (probs.getD j 0 ≤ probs.getD i 0) = true) :=
          List.sorted_mergeSort
            (fun a b c hab hbc => by
              simp only [decide_eq_true_eq] at hab hbc ⊢
              exact le_trans hbc hab)
            (fun a b => by
              simp only [Bool.or_eq_true, decide_eq_true_eq]
              exact (le_total (probs.getD b 0) (probs.getD a 0)))
            (List.range probs.length)
        exact hbool.imp (fun hab => of_decide_eq_true hab)
      have hsub := collectSelections_fst_sublist allowed weakE strongE
        ((max 1 (min limit 64)).toNat)
        ((List.range probs.length).mergeSort
          (fun i j => decide (probs.getD j 0 ≤ probs.getD i 0)))
      have hpw := hsorted.sublist hsub
      rw [List.pairwise_map] at hpw
      exact hpw
    · intro p hp
      have := collectSelections_mem allowed weakE strongE _ _ p hp
      exact selectFrom_emotion_mem this

/-- Witness for C10 at a concrete probability vector. -/
theorem filter_emojis_by_emotion_spec_witness :
    (List.replicate 64 (0 : ℚ)).length = 64 ∧
      ∃ sels, filter_emojis_by_emotion (List.replicate 64 (0 : ℚ)) 5
          [Emotion.happiness] none none = Except.ok sels
        ∧ sels.length ≤ (max 1 (min (5 : Int) 64)).toNat
        ∧ sels.Pairwise (fun a b =>
            (List.replicate 64 (0 : ℚ)).getD b.1 0 ≤ (List.replicate 64 (0 : ℚ)).getD a.1 0)
        ∧ ∀ p ∈ sels, p.2.emotion ∈ [Emotion.happiness] :=
  ⟨by simp,
   (filter_emojis_by_emotion_spec (List.replicate 64 (0 : ℚ)) 5
      [Emotion.happiness] none none).2 (by simp)⟩

end TorchMoji
